import Mathlib

/-!
Shallow embedding of the agent-registry core of the repository
(`mcp_agent_registry.py` and `mcp_agents/base_mcp_agent_server.py`).

The registry is a dictionary from agent names to mutable `AgentInfo`
records; every Python attribute assignment on an `AgentInfo` object is
modelled as a functional update of the binding in an association list.
All external effects (process spawn/poll/terminate outcomes, HTTP health
probes, wall-clock time) are nondeterministic inputs supplied to each
operation as explicit environment parameters.
-/

namespace AgenticSeek

/-- `AgentStatus` enumeration from `mcp_agent_registry.py`. -/
inductive AgentStatus where
  | starting
  | running
  | crashed
  | stopped
  | restarting
deriving DecidableEq, Repr

/-- `AgentInfo` dataclass: per-agent mutable runtime record.  A process
handle is modelled by its pid; `none` means no process was ever attached. -/
structure AgentInfo where
  name : String
  port : Nat
  process : Option Nat := none
  status : AgentStatus := AgentStatus.stopped
  last_health_check : Nat := 0
  restart_count : Nat := 0
  max_restarts : Nat := 3
  script_path : String := ""
deriving DecidableEq, Repr

/-- The registry's `self.agents` dictionary: an association list from
agent name to `AgentInfo` (Python dict iteration order = list order). -/
abbrev Agents := List (String × AgentInfo)

/-- Dictionary lookup `self.agents[agent_name]` (with the
`agent_name in self.agents` guard reflected by the `Option`). -/
def findAgent (ags : Agents) (k : String) : Option AgentInfo :=
  match ags with
  | [] => none
  | (k', v) :: rest => if k' = k then some v else findAgent rest k

/-- Mutating the `AgentInfo` object bound to key `k` in the dictionary:
Python mutates the object in place, so only an existing binding changes
and the dictionary's key set and order are untouched. -/
def setAgent (ags : Agents) (k : String) (v : AgentInfo) : Agents :=
  match ags with
  | [] => []
  | (k', w) :: rest =>
    if k' = k then (k', v) :: setAgent rest k v else (k', w) :: setAgent rest k v

/-- Outcome of the `requests.get(.../health, timeout=5)` call:
either an HTTP response with a status code, or a raised exception
(connection failure or timeout). -/
inductive ProbeResult where
  | ok (code : Nat)
  | exn
deriving DecidableEq, Repr

/-- The static `self.fallback_map` dictionary (with `.get(name, [])`
semantics for absent keys). -/
def fallback_map (n : String) : List String :=
  if n = "browser" then ["casual"]
  else if n = "code" then ["casual"]
  else if n = "file" then ["casual"]
  else if n = "planner" then ["casual", "code"]
  else if n = "casual" then []
  else []

/-- `AgentRegistry.get_healthy_agents`: names of agents whose status is
`RUNNING`, in dictionary order. -/
def get_healthy_agents (ags : Agents) : List String :=
  (ags.filter (fun p => decide (p.2.status = AgentStatus.running))).map (fun p => p.1)

/-- `AgentRegistry.get_fallback_agents`: declared fallback chain filtered
to currently healthy agents. -/
def get_fallback_agents (ags : Agents) (failed : String) : List String :=
  let fallbacks := fallback_map failed
  let healthy := get_healthy_agents ags
  fallbacks.filter (fun a => healthy.contains a)

/-- `AgentRegistry.check_agent_health`.  `probe` is the outcome of the
HTTP GET, `now` the value of `time.time()`.  Returns the updated registry
and the boolean result. -/
def check_agent_health (ags : Agents) (name : String) (probe : ProbeResult)
    (now : Nat) : Agents × Bool :=
  match findAgent ags name with
  | none => (ags, false)
  | some agent =>
    match probe with
    | ProbeResult.ok code =>
      if code = 200 then
        let agent1 := { agent with last_health_check := now }
        let agent2 := if agent1.status = AgentStatus.crashed
                      then { agent1 with status := AgentStatus.running }
                      else agent1
        (setAgent ags name agent2, true)
      else
        -- non-200 status: log a warning and return False, no state change
        (ags, false)
    | ProbeResult.exn =>
      if agent.status = AgentStatus.running then
        (setAgent ags name { agent with status := AgentStatus.crashed }, false)
      else
        (ags, false)

/-- `AgentRegistry.stop_agent`.  `alive` is the result of
`agent.process.poll() is None`; `stopExn` models an exception raised while
terminating the live process (caught by the `except` clause, which returns
`False` without the final status assignment). -/
def stop_agent (ags : Agents) (name : String) (alive : Bool) (stopExn : Bool) :
    Agents × Bool :=
  match findAgent ags name with
  | none => (ags, false)
  | some agent =>
    if agent.process.isSome && alive then
      if stopExn then (ags, false)
      else (setAgent ags name { agent with status := AgentStatus.stopped }, true)
    else
      (setAgent ags name { agent with status := AgentStatus.stopped }, true)

/-- Environment for one `start_agent` call: outcomes of every external
effect in source order. -/
structure StartEnv where
  /-- the pre-existing process's `poll() is None` at the top of `start_agent` -/
  prevAlive : Bool := false
  /-- `poll() is None` as re-checked inside the nested `stop_agent` call -/
  prevStopAlive : Bool := false
  /-- exception inside that nested `stop_agent` call -/
  prevStopExn : Bool := false
  /-- `subprocess.Popen` raises -/
  spawnExn : Bool := false
  /-- pid of the freshly spawned process -/
  newPid : Nat := 0
  /-- `agent.process.poll() is None` after the 3-second grace sleep -/
  pollAlive : Bool := true
  /-- outcome of the single health probe -/
  probe : ProbeResult := ProbeResult.ok 200
  /-- `time.time()` inside the health probe -/
  now : Nat := 0
  /-- `poll() is None` inside the `stop_agent` call of the failed-probe branch -/
  stopAlive : Bool := true
  /-- exception inside that `stop_agent` call -/
  stopExn : Bool := false
deriving DecidableEq, Repr

/-- `AgentRegistry.start_agent`.  Faithful transcription; the inner
`findAgent` re-reads after the nested `stop_agent` (Python keeps mutating
one shared object, so its state there is the post-stop state).  The
`none` fallbacks of the re-lookups are unreachable: `stop_agent` and
`check_agent_health` never remove a binding. -/
def start_agent (ags : Agents) (name : String) (env : StartEnv) : Agents × Bool :=
  match findAgent ags name with
  | none => (ags, false)
  | some agent0 =>
    let ags1 := if agent0.process.isSome && env.prevAlive
                then (stop_agent ags name env.prevStopAlive env.prevStopExn).1
                else ags
    match findAgent ags1 name with
    | none => (ags1, false)
    | some agent1 =>
      let ags2 := setAgent ags1 name { agent1 with status := AgentStatus.starting }
      if env.spawnExn then
        -- Popen raised: `agent.process` keeps its old value, status := CRASHED
        (setAgent ags2 name { agent1 with status := AgentStatus.crashed }, false)
      else
        let agent2 := { agent1 with status := AgentStatus.starting,
                                    process := some env.newPid }
        let ags3 := setAgent ags2 name agent2
        if env.pollAlive then
          let res := check_agent_health ags3 name env.probe env.now
          if res.2 then
            match findAgent res.1 name with
            | none => (res.1, false)
            | some agent4 =>
              (setAgent res.1 name { agent4 with status := AgentStatus.running }, true)
          else
            ((stop_agent res.1 name env.stopAlive env.stopExn).1, false)
        else
          (setAgent ags3 name { agent2 with status := AgentStatus.crashed }, false)

/-- Environment for one `restart_agent` call. -/
structure RestartEnv where
  /-- `poll() is None` inside the `stop_agent` step -/
  stopAlive : Bool := false
  /-- exception inside that `stop_agent` step -/
  stopExn : Bool := false
  /-- environment of the `start_agent` step -/
  start : StartEnv := {}
deriving DecidableEq, Repr

/-- `AgentRegistry.restart_agent`.  The `try/except` around the body is
dead code in the model: `stop_agent`/`start_agent` catch their own
exceptions and `asyncio.sleep` does not raise. -/
def restart_agent (ags : Agents) (name : String) (env : RestartEnv) : Agents × Bool :=
  match findAgent ags name with
  | none => (ags, false)
  | some agent =>
    if agent.max_restarts ≤ agent.restart_count then
      (setAgent ags name { agent with status := AgentStatus.crashed }, false)
    else
      let ags1 := setAgent ags name
        { agent with status := AgentStatus.restarting,
                     restart_count := agent.restart_count + 1 }
      let ags2 := (stop_agent ags1 name env.stopAlive env.stopExn).1
      start_agent ags2 name env.start

/-- The atomic prefix of `restart_agent` executed before the coroutine
first suspends (at `await asyncio.sleep(2)`): guard check, status :=
RESTARTING, restart_count increment, and the (non-suspending) stop step. -/
def restart_phase1 (ags : Agents) (name : String) (stopAlive stopExn : Bool) :
    Agents :=
  match findAgent ags name with
  | none => ags
  | some agent =>
    if agent.max_restarts ≤ agent.restart_count then
      setAgent ags name { agent with status := AgentStatus.crashed }
    else
      let ags1 := setAgent ags name
        { agent with status := AgentStatus.restarting,
                     restart_count := agent.restart_count + 1 }
      (stop_agent ags1 name stopAlive stopExn).1

/-- `QueryResponse` Pydantic model from `base_mcp_agent_server.py`:
the fixed response envelope of the worker's `/query` endpoint.  The
`Dict[str, Any]` of `blocks` is modelled as a string-keyed association
list of opaque payload strings. -/
structure QueryResponse where
  answer : String
  reasoning : String
  agent_name : String
  status : String
  blocks : List (String × String)
  success : Bool
  error : Option String
deriving DecidableEq, Repr

/-- The dictionary returned by `execute_agent_query`; absent keys (read by
the endpoint through `result.get(key, default)`) are `none`. -/
structure AgentResult where
  answer : Option String := none
  reasoning : Option String := none
  status : Option String := none
  blocks : Option (List (String × String)) := none
deriving DecidableEq, Repr

/-- The `/query` route handler (`execute_query` in `setup_routes`): the
underlying agent call either yields a result dictionary or raises, which
is modelled by `Except` with the exception's message; the handler is a
total function into `QueryResponse`, i.e. it never lets an exception
escape. -/
def execute_query (agent_name : String) (r : Except String AgentResult) :
    QueryResponse :=
  match r with
  | Except.ok result =>
    { answer := result.answer.getD ""
      reasoning := result.reasoning.getD ""
      agent_name := agent_name
      status := result.status.getD "completed"
      blocks := result.blocks.getD []
      success := true
      error := none }
  | Except.error e =>
    { answer := "I apologize, but I encountered an error while processing your request: " ++ e
      reasoning := "The " ++ agent_name ++ " agent encountered an unexpected error."
      agent_name := agent_name
      status := "error"
      blocks := []
      success := false
      error := some ("Error in " ++ agent_name ++ " agent: " ++ e) }

/-- One registry operation, for reasoning about arbitrary operation
sequences. -/
inductive RegOp where
  | start (name : String) (env : StartEnv)
  | stop (name : String) (alive stopExn : Bool)
  | restart (name : String) (env : RestartEnv)
  | check (name : String) (probe : ProbeResult) (now : Nat)
deriving DecidableEq, Repr

/-- Apply one operation to the registry state. -/
def applyOp (ags : Agents) (op : RegOp) : Agents :=
  match op with
  | RegOp.start name env => (start_agent ags name env).1
  | RegOp.stop name alive stopExn => (stop_agent ags name alive stopExn).1
  | RegOp.restart name env => (restart_agent ags name env).1
  | RegOp.check name probe now => (check_agent_health ags name probe now).1

/-- Run a sequence of registry operations. -/
def runOps (ags : Agents) (ops : List RegOp) : Agents :=
  match ops with
  | [] => ags
  | op :: rest => runOps (applyOp ags op) rest

/-! ### Basic lemmas about the dictionary model -/

theorem findAgent_mem {ags : Agents} {k : String} {a : AgentInfo}
    (h : findAgent ags k = some a) : (k, a) ∈ ags := by
  induction ags with
  | nil => simp [findAgent] at h
  | cons p rest ih =>
    obtain ⟨k', v⟩ := p
    by_cases hk : k' = k
    · subst hk
      simp [findAgent] at h
      subst h
      exact List.mem_cons_self _ _
    · simp [findAgent, hk] at h
      exact List.mem_cons_of_mem _ (ih h)

theorem findAgent_setAgent_same (ags : Agents) (k : String) (v : AgentInfo) :
    findAgent (setAgent ags k v) k = (findAgent ags k).map (fun _ => v) := by
  induction ags with
  | nil => simp [findAgent, setAgent]
  | cons p rest ih =>
    obtain ⟨k', w⟩ := p
    by_cases hk : k' = k
    · subst hk
      simp [findAgent, setAgent]
    · simp [findAgent, setAgent, hk, ih]

theorem findAgent_setAgent_other (ags : Agents) {k k' : String} (v : AgentInfo)
    (hk : k ≠ k') : findAgent (setAgent ags k v) k' = findAgent ags k' := by
  induction ags with
  | nil => simp [findAgent, setAgent]
  | cons p rest ih =>
    obtain ⟨k'', w⟩ := p
    by_cases h2 : k'' = k
    · subst h2
      simp [findAgent, setAgent, hk, ih]
    · by_cases h3 : k'' = k'
      · subst h3
        simp [findAgent, setAgent, h2]
      · simp [findAgent, setAgent, h2, h3, ih]

theorem setAgent_setAgent (ags : Agents) (k : String) (v w : AgentInfo) :
    setAgent (setAgent ags k v) k w = setAgent ags k w := by
  induction ags with
  | nil => rfl
  | cons p rest ih =>
    obtain ⟨k', u⟩ := p
    by_cases hk : k' = k
    · subst hk
      simp [setAgent, ih]
    · simp [setAgent, hk, ih]

/-- The per-agent restart-budget invariant from the spec:
`restartCount <= maxRestarts` for every registered agent. -/
abbrev RestartInv (ags : Agents) : Prop :=
  ∀ p ∈ ags, p.2.restart_count ≤ p.2.max_restarts

theorem findAgent_inv {ags : Agents} (hinv : RestartInv ags) {k : String}
    {a : AgentInfo} (h : findAgent ags k = some a) :
    a.restart_count ≤ a.max_restarts :=
  hinv (k, a) (findAgent_mem h)

theorem mem_setAgent (ags : Agents) (k : String) (v : AgentInfo) :
    ∀ p ∈ setAgent ags k v, p ∈ ags ∨ p.2 = v := by
  induction ags with
  | nil => intro p hp; simp [setAgent] at hp
  | cons q rest ih =>
    obtain ⟨k', w⟩ := q
    intro p hp
    by_cases hk : k' = k
    · simp only [setAgent, if_pos hk, List.mem_cons] at hp
      rcases hp with h | h
      · right; rw [h]
      · rcases ih p h with h' | h'
        · exact Or.inl (List.mem_cons_of_mem _ h')
        · exact Or.inr h'
    · simp only [setAgent, if_neg hk, List.mem_cons] at hp
      rcases hp with h | h
      · exact Or.inl (by rw [h]; exact List.mem_cons_self _ _)
      · rcases ih p h with h' | h'
        · exact Or.inl (List.mem_cons_of_mem _ h')
        · exact Or.inr h'

theorem inv_setAgent {ags : Agents} (hinv : RestartInv ags) {k : String}
    {v : AgentInfo} (hv : v.restart_count ≤ v.max_restarts) :
    RestartInv (setAgent ags k v) := by
  intro p hp
  rcases mem_setAgent ags k v p hp with h | h
  · exact hinv p h
  · rw [h]; exact hv

theorem inv_stop (ags : Agents) (name : String) (alive stopExn : Bool)
    (h : RestartInv ags) : RestartInv (stop_agent ags name alive stopExn).1 := by
  unfold stop_agent
  split
  · exact h
  · rename_i agent heq
    have hle := findAgent_inv h heq
    split
    · split
      · exact h
      · exact inv_setAgent h hle
    · exact inv_setAgent h hle

theorem inv_check (ags : Agents) (name : String) (probe : ProbeResult) (now : Nat)
    (h : RestartInv ags) : RestartInv (check_agent_health ags name probe now).1 := by
  unfold check_agent_health
  split
  · exact h
  · rename_i agent heq
    have hle := findAgent_inv h heq
    dsimp only
    split
    · split
      · refine inv_setAgent h ?_
        split
        · exact hle
        · exact hle
      · exact h
    · split
      · exact inv_setAgent h hle
      · exact h

theorem inv_start (ags : Agents) (name : String) (env : StartEnv)
    (h : RestartInv ags) : RestartInv (start_agent ags name env).1 := by
  unfold start_agent
  split
  · exact h
  · rename_i agent0 heq0
    dsimp only
    have h1 : RestartInv (if agent0.process.isSome && env.prevAlive
        then (stop_agent ags name env.prevStopAlive env.prevStopExn).1
        else ags) := by
      split
      · exact inv_stop _ _ _ _ h
      · exact h
    set ags1 := (if agent0.process.isSome && env.prevAlive
        then (stop_agent ags name env.prevStopAlive env.prevStopExn).1
        else ags) with hg
    split
    · exact h1
    · rename_i agent1 heq1
      have hle1 := findAgent_inv h1 heq1
      have h2 := inv_setAgent (k := name)
        (v := { agent1 with status := AgentStatus.starting }) h1 hle1
      by_cases hsp : env.spawnExn = true
      · rw [if_pos hsp]
        exact inv_setAgent h2 hle1
      · rw [if_neg hsp]
        have h3 := inv_setAgent (k := name)
          (v := { agent1 with status := AgentStatus.starting,
                              process := some env.newPid }) h2 hle1
        by_cases hpl : env.pollAlive = true
        · rw [if_pos hpl]
          have h4 := inv_check
            (setAgent (setAgent ags1 name { agent1 with status := AgentStatus.starting })
              name { agent1 with status := AgentStatus.starting, process := some env.newPid })
            name env.probe env.now h3
          by_cases hres : (check_agent_health
              (setAgent (setAgent ags1 name { agent1 with status := AgentStatus.starting })
                name { agent1 with status := AgentStatus.starting, process := some env.newPid })
              name env.probe env.now).2 = true
          · rw [if_pos hres]
            split
            · exact h4
            · rename_i agent4 heq4
              have hle4 := findAgent_inv h4 heq4
              exact inv_setAgent h4 hle4
          · rw [if_neg hres]
            exact inv_stop _ _ _ _ h4
        · rw [if_neg hpl]
          exact inv_setAgent h3 hle1

theorem inv_restart (ags : Agents) (name : String) (env : RestartEnv)
    (h : RestartInv ags) : RestartInv (restart_agent ags name env).1 := by
  unfold restart_agent
  split
  · exact h
  · rename_i agent heq
    have hle := findAgent_inv h heq
    split
    · exact inv_setAgent h hle
    · rename_i hlt
      have hsucc : agent.restart_count + 1 ≤ agent.max_restarts :=
        Nat.lt_of_not_le hlt
      have h1 := inv_setAgent (k := name)
        (v := { agent with status := AgentStatus.restarting,
                           restart_count := agent.restart_count + 1 })
        h hsucc
      have h2 := inv_stop _ name env.stopAlive env.stopExn h1
      exact inv_start _ name env.start h2

theorem inv_applyOp (ags : Agents) (op : RegOp) (h : RestartInv ags) :
    RestartInv (applyOp ags op) := by
  cases op with
  | start name env => exact inv_start ags name env h
  | stop name alive stopExn => exact inv_stop ags name alive stopExn h
  | restart name env => exact inv_restart ags name env h
  | check name probe now => exact inv_check ags name probe now h

theorem inv_runOps (ags : Agents) (ops : List RegOp) (h : RestartInv ags) :
    RestartInv (runOps ags ops) := by
  induction ops generalizing ags with
  | nil => exact h
  | cons op rest ih => exact ih _ (inv_applyOp ags op h)

theorem findAgent_stop (ags : Agents) (name : String) (alive stopExn : Bool)
    (a : AgentInfo) (ha : findAgent ags name = some a) :
    findAgent (stop_agent ags name alive stopExn).1 name = some a ∨
    findAgent (stop_agent ags name alive stopExn).1 name =
      some { a with status := AgentStatus.stopped } := by
  unfold stop_agent
  rw [ha]
  dsimp only
  split
  · split
    · exact Or.inl ha
    · right
      rw [findAgent_setAgent_same, ha]
      rfl
  · right
    rw [findAgent_setAgent_same, ha]
    rfl

theorem check_unhealthy_not_running (ags : Agents) (name : String)
    (probe : ProbeResult) (now : Nat) (a : AgentInfo)
    (ha : findAgent ags name = some a)
    (hnr : a.status ≠ AgentStatus.running)
    (hprobe : probe ≠ ProbeResult.ok 200) :
    check_agent_health ags name probe now = (ags, false) := by
  unfold check_agent_health
  rw [ha]
  dsimp only
  cases probe with
  | ok code =>
    have hcode : code ≠ 200 := by
      intro h
      exact hprobe (by rw [h])
    dsimp only
    rw [if_neg hcode]
  | exn =>
    dsimp only
    rw [if_neg hnr]

theorem stop_no_exn_ends_stopped (ags : Agents) (name : String) (alive : Bool)
    (a : AgentInfo) (ha : findAgent ags name = some a) :
    (findAgent (stop_agent ags name alive false).1 name).map AgentInfo.status =
      some AgentStatus.stopped := by
  unfold stop_agent
  rw [ha]
  dsimp only
  split
  · rw [if_neg Bool.false_ne_true]
    dsimp only
    rw [findAgent_setAgent_same, ha]
    rfl
  · rw [findAgent_setAgent_same, ha]
    rfl

/-- Reference predicate for C2: the agent registered under name `x`
exists and its status is `RUNNING`. -/
def runningB (ags : Agents) (x : String) : Bool :=
  match findAgent ags x with
  | some ag => decide (ag.status = AgentStatus.running)
  | none => false

theorem findAgent_cons (k : String) (v : AgentInfo) (rest : Agents) (x : String) :
    findAgent ((k, v) :: rest) x = if k = x then some v else findAgent rest x := rfl

theorem get_healthy_cons (k : String) (v : AgentInfo) (rest : Agents) :
    get_healthy_agents ((k, v) :: rest) =
      if v.status = AgentStatus.running then k :: get_healthy_agents rest
      else get_healthy_agents rest := by
  unfold get_healthy_agents
  by_cases h : v.status = AgentStatus.running <;> simp [List.filter_cons, h]

theorem mem_healthy_mem_keys (ags : Agents) (x : String)
    (hx : x ∈ get_healthy_agents ags) : x ∈ ags.map Prod.fst := by
  unfold get_healthy_agents at hx
  rcases List.mem_map.mp hx with ⟨p, hp, hpx⟩
  exact hpx ▸ List.mem_map_of_mem Prod.fst (List.mem_of_mem_filter hp)

theorem mem_healthy_iff (ags : Agents) (x : String) :
    (ags.map Prod.fst).Nodup →
    (x ∈ get_healthy_agents ags ↔ runningB ags x = true) := by
  induction ags with
  | nil =>
    intro _
    simp [get_healthy_agents, runningB, findAgent]
  | cons p rest ih =>
    intro hnd
    obtain ⟨k, v⟩ := p
    simp only [List.map_cons, List.nodup_cons] at hnd
    obtain ⟨hk, hnd2⟩ := hnd
    have ihr := ih hnd2
    by_cases hkx : k = x
    · subst hkx
      by_cases hv : v.status = AgentStatus.running
      · simp [get_healthy_cons, runningB, findAgent_cons, hv]
      · have hnm : k ∉ get_healthy_agents rest :=
          fun hmem => hk (mem_healthy_mem_keys rest k hmem)
        simp [get_healthy_cons, runningB, findAgent_cons, hv, hnm]
    · by_cases hv : v.status = AgentStatus.running <;>
        simp [get_healthy_cons, runningB, findAgent_cons, hv, hkx,
              Ne.symm hkx, ihr]

theorem fallback_map_nodup (nm : String) : (fallback_map nm).Nodup := by
  unfold fallback_map
  split_ifs <;> decide

/-! ### Concrete sample states used by the witnesses -/

/-- The five-agent descriptor table of `AgentRegistry.__init__`, in a
mixed health state (only `code` and `casual` running). -/
def sampleRegistry : Agents :=
  [("browser", { name := "browser", port := 8001,
                 status := AgentStatus.crashed,
                 script_path := "mcp_agents/browser_agent_server.py" }),
   ("code", { name := "code", port := 8002,
              status := AgentStatus.running,
              script_path := "mcp_agents/code_agent_server.py" }),
   ("file", { name := "file", port := 8003,
              status := AgentStatus.stopped,
              script_path := "mcp_agents/file_agent_server.py" }),
   ("casual", { name := "casual", port := 8004,
                status := AgentStatus.running,
                script_path := "mcp_agents/casual_agent_server.py" }),
   ("planner", { name := "planner", port := 8005,
                 status := AgentStatus.crashed,
                 script_path := "mcp_agents/planner_agent_server.py" })]

/-- A crashed agent whose restart budget is exhausted. -/
def frozenAgent : AgentInfo :=
  { name := "browser", port := 8001, process := some 42,
    status := AgentStatus.crashed, restart_count := 3,
    script_path := "mcp_agents/browser_agent_server.py" }

/-- One-agent registry holding `frozenAgent`. -/
def sampleFrozen : Agents := [("browser", frozenAgent)]

/-- A stopped agent that has never been started. -/
def stoppedAgent : AgentInfo :=
  { name := "file", port := 8003, status := AgentStatus.stopped,
    script_path := "mcp_agents/file_agent_server.py" }

/-- One-agent registry holding `stoppedAgent`. -/
def sampleStopped : Agents := [("file", stoppedAgent)]

/-- Start environment of a run whose spawn succeeds but whose single
post-grace-period health probe raises. -/
def failedProbeEnv : StartEnv := { probe := ProbeResult.exn, newPid := 42 }

/-- A running agent whose restart budget is exhausted. -/
def runningFrozenAgent : AgentInfo :=
  { name := "code", port := 8002, process := some 7,
    status := AgentStatus.running, restart_count := 3,
    script_path := "mcp_agents/code_agent_server.py" }

/-- One-agent registry holding `runningFrozenAgent`. -/
def sampleRunningFrozen : Agents := [("code", runningFrozenAgent)]

/-! ### Claim theorems -/

/-- C1: for every agent and every sequence of registry operations starting
from a state satisfying the restart-budget invariant, `restart_count`
never exceeds `max_restarts`; and once `restart_count` has reached
`max_restarts`, any further `restart_agent` call performs no restart
attempt (the state change is only the guard branch's `status := CRASHED`),
returns `False`, and leaves `restart_count` at `max_restarts`, so the same
holds repeatedly. -/
theorem restart_count_never_exceeds_max
    (ags : Agents) (ops : List RegOp) (name : String) (a : AgentInfo)
    (env : RestartEnv) (hinv : RestartInv ags)
    (ha : findAgent (runOps ags ops) name = some a) :
    a.restart_count ≤ a.max_restarts ∧
    (a.max_restarts ≤ a.restart_count →
      (restart_agent (runOps ags ops) name env).2 = false ∧
      findAgent (restart_agent (runOps ags ops) name env).1 name =
        some { a with status := AgentStatus.crashed }) := by
  have hinv2 := inv_runOps ags ops hinv
  refine ⟨findAgent_inv hinv2 ha, fun hfr => ?_⟩
  have h1 : restart_agent (runOps ags ops) name env =
      (setAgent (runOps ags ops) name { a with status := AgentStatus.crashed },
        false) := by
    unfold restart_agent
    rw [ha]
    dsimp only
    rw [if_pos hfr]
  rw [h1]
  refine ⟨rfl, ?_⟩
  dsimp only
  rw [findAgent_setAgent_same, ha]
  rfl

/-- Witness for C1 at a concrete frozen agent. -/
theorem restart_count_never_exceeds_max_witness :
    frozenAgent.restart_count ≤ frozenAgent.max_restarts ∧
    ((restart_agent (runOps sampleFrozen []) "browser" {}).2 = false ∧
      findAgent (restart_agent (runOps sampleFrozen []) "browser" {}).1 "browser" =
        some { frozenAgent with status := AgentStatus.crashed }) :=
  ⟨(restart_count_never_exceeds_max sampleFrozen [] "browser" frozenAgent {}
      (by decide) rfl).1,
   (restart_count_never_exceeds_max sampleFrozen [] "browser" frozenAgent {}
      (by decide) rfl).2 (by decide)⟩

/-- C9: for a name absent from the agent table, each of the four
operations returns `False` and leaves the registry completely
unchanged. -/
theorem unknown_agent_is_noop
    (ags : Agents) (name : String) (h : findAgent ags name = none)
    (envS : StartEnv) (alive stopExn : Bool) (envR : RestartEnv)
    (probe : ProbeResult) (now : Nat) :
    start_agent ags name envS = (ags, false) ∧
    stop_agent ags name alive stopExn = (ags, false) ∧
    restart_agent ags name envR = (ags, false) ∧
    check_agent_health ags name probe now = (ags, false) := by
  refine ⟨?_, ?_, ?_, ?_⟩
  · unfold start_agent
    rw [h]
  · unfold stop_agent
    rw [h]
  · unfold restart_agent
    rw [h]
  · unfold check_agent_health
    rw [h]

/-- Witness for C9 at a concrete registry and an unregistered name. -/
theorem unknown_agent_is_noop_witness :
    start_agent sampleFrozen "ghost" {} = (sampleFrozen, false) ∧
    stop_agent sampleFrozen "ghost" true false = (sampleFrozen, false) ∧
    restart_agent sampleFrozen "ghost" {} = (sampleFrozen, false) ∧
    check_agent_health sampleFrozen "ghost" (ProbeResult.ok 200) 1 =
      (sampleFrozen, false) :=
  unknown_agent_is_noop sampleFrozen "ghost" rfl {} true false {}
    (ProbeResult.ok 200) 1

/-- C10: a `restart_agent` call on an agent whose `restart_count` has
reached `max_restarts` sets the agent's status to `CRASHED` whatever its
previous status was (the failure branch is not state-preserving). -/
theorem frozen_restart_demotes_to_crashed
    (ags : Agents) (name : String) (a : AgentInfo) (env : RestartEnv)
    (ha : findAgent ags name = some a)
    (hfr : a.max_restarts ≤ a.restart_count) :
    restart_agent ags name env =
      (setAgent ags name { a with status := AgentStatus.crashed }, false) ∧
    findAgent (restart_agent ags name env).1 name =
      some { a with status := AgentStatus.crashed } := by
  have h1 : restart_agent ags name env =
      (setAgent ags name { a with status := AgentStatus.crashed }, false) := by
    unfold restart_agent
    rw [ha]
    dsimp only
    rw [if_pos hfr]
  refine ⟨h1, ?_⟩
  rw [h1]
  dsimp only
  rw [findAgent_setAgent_same, ha]
  rfl

/-- Witness for C10: a `Running` frozen agent is demoted to `Crashed`. -/
theorem frozen_restart_demotes_to_crashed_witness :
    restart_agent sampleRunningFrozen "code" {} =
      (setAgent sampleRunningFrozen "code"
        { runningFrozenAgent with status := AgentStatus.crashed }, false) ∧
    findAgent (restart_agent sampleRunningFrozen "code" {}).1 "code" =
      some { runningFrozenAgent with status := AgentStatus.crashed } :=
  frozen_restart_demotes_to_crashed sampleRunningFrozen "code"
    runningFrozenAgent {} rfl (by decide)

/-- C6: a successful (HTTP 200) health probe on a `Crashed` agent
transitions it back to `Running`, records the probe timestamp, and leaves
`restart_count` unchanged. -/
theorem crashed_healthy_probe_recovers
    (ags : Agents) (name : String) (a : AgentInfo) (now : Nat)
    (ha : findAgent ags name = some a)
    (hc : a.status = AgentStatus.crashed) :
    check_agent_health ags name (ProbeResult.ok 200) now =
      (setAgent ags name
        { a with last_health_check := now, status := AgentStatus.running },
        true) ∧
    findAgent (check_agent_health ags name (ProbeResult.ok 200) now).1 name =
      some { a with last_health_check := now, status := AgentStatus.running } ∧
    ({ a with last_health_check := now,
              status := AgentStatus.running } : AgentInfo).restart_count =
      a.restart_count := by
  have h1 : check_agent_health ags name (ProbeResult.ok 200) now =
      (setAgent ags name
        { a with last_health_check := now, status := AgentStatus.running },
        true) := by
    unfold check_agent_health
    rw [ha]
    dsimp only
    rw [if_pos rfl, if_pos hc]
  refine ⟨h1, ?_, rfl⟩
  rw [h1]
  dsimp only
  rw [findAgent_setAgent_same, ha]
  rfl

/-- Witness for C6 on a concrete crashed agent. -/
theorem crashed_healthy_probe_recovers_witness :
    check_agent_health sampleFrozen "browser" (ProbeResult.ok 200) 9 =
      (setAgent sampleFrozen "browser"
        { frozenAgent with last_health_check := 9,
                           status := AgentStatus.running }, true) ∧
    findAgent (check_agent_health sampleFrozen "browser"
        (ProbeResult.ok 200) 9).1 "browser" =
      some { frozenAgent with last_health_check := 9,
                              status := AgentStatus.running } ∧
    ({ frozenAgent with last_health_check := 9,
                        status := AgentStatus.running } : AgentInfo).restart_count =
      frozenAgent.restart_count :=
  crashed_healthy_probe_recovers sampleFrozen "browser" frozenAgent 9 rfl rfl

/-- C7: `stop_agent` on a registered agent with no live process (no
process handle, or the process has already exited so `poll()` is not
`None`) returns `True`, only sets the status to `Stopped`, leaves the
process handle untouched, and a second such call is a no-op returning the
identical result. -/
theorem stop_idempotent_on_dead
    (ags : Agents) (name : String) (a : AgentInfo)
    (alive stopExn alive2 stopExn2 : Bool)
    (ha : findAgent ags name = some a)
    (hdead : (a.process.isSome && alive) = false)
    (hdead2 : (a.process.isSome && alive2) = false) :
    stop_agent ags name alive stopExn =
      (setAgent ags name { a with status := AgentStatus.stopped }, true) ∧
    ({ a with status := AgentStatus.stopped } : AgentInfo).process = a.process ∧
    stop_agent (stop_agent ags name alive stopExn).1 name alive2 stopExn2 =
      stop_agent ags name alive stopExn := by
  have hneg : ¬ ((a.process.isSome && alive) = true) := by
    rw [hdead]
    exact Bool.false_ne_true
  have h1 : stop_agent ags name alive stopExn =
      (setAgent ags name { a with status := AgentStatus.stopped }, true) := by
    unfold stop_agent
    rw [ha]
    dsimp only
    rw [if_neg hneg]
  refine ⟨h1, rfl, ?_⟩
  rw [h1]
  dsimp only
  have hneg2 :
      ¬ ((({ a with status := AgentStatus.stopped } : AgentInfo).process.isSome
          && alive2) = true) := by
    rw [show ({ a with status := AgentStatus.stopped } : AgentInfo).process
          = a.process from rfl, hdead2]
    exact Bool.false_ne_true
  unfold stop_agent
  rw [findAgent_setAgent_same, ha, Option.map_some']
  dsimp only
  rw [if_neg hneg2, setAgent_setAgent]

/-- Witness for C7 on a concrete agent whose process has exited. -/
theorem stop_idempotent_on_dead_witness :
    stop_agent sampleFrozen "browser" false false =
      (setAgent sampleFrozen "browser"
        { frozenAgent with status := AgentStatus.stopped }, true) ∧
    ({ frozenAgent with status := AgentStatus.stopped } : AgentInfo).process =
      frozenAgent.process ∧
    stop_agent (stop_agent sampleFrozen "browser" false false).1 "browser"
        false false =
      stop_agent sampleFrozen "browser" false false :=
  stop_idempotent_on_dead sampleFrozen "browser" frozenAgent
    false false false false rfl (by decide) (by decide)

/-- C4 counterexample: a `Running` agent probed with a non-success HTTP
status (here 500) is NOT transitioned to `Crashed` — the registry is
returned unchanged with the agent still `Running`, contradicting the
claim that any unhealthy probe result crashes the agent. -/
theorem running_probe_http_error_keeps_running :
    check_agent_health sampleRunningFrozen "code" (ProbeResult.ok 500) 4 =
      (sampleRunningFrozen, false) ∧
    (findAgent (check_agent_health sampleRunningFrozen "code"
        (ProbeResult.ok 500) 4).1 "code").map AgentInfo.status =
      some AgentStatus.running ∧
    AgentStatus.running ≠ AgentStatus.crashed := by
  refine ⟨rfl, rfl, ?_⟩
  intro h
  cases h

/-- C4 amended: for a `Running` agent, only a probe that raises
(connection failure or timeout) transitions the status to `Crashed`
before `check_agent_health` returns; a probe answered with a non-success
HTTP status leaves the registry unchanged (the agent stays `Running`) and
merely returns `False`. -/
theorem running_unhealthy_probe_behaviour
    (ags : Agents) (name : String) (a : AgentInfo) (now : Nat)
    (ha : findAgent ags name = some a)
    (hr : a.status = AgentStatus.running) :
    check_agent_health ags name ProbeResult.exn now =
      (setAgent ags name { a with status := AgentStatus.crashed }, false) ∧
    findAgent (check_agent_health ags name ProbeResult.exn now).1 name =
      some { a with status := AgentStatus.crashed } ∧
    (∀ code : Nat, code ≠ 200 →
      check_agent_health ags name (ProbeResult.ok code) now = (ags, false)) := by
  have h1 : check_agent_health ags name ProbeResult.exn now =
      (setAgent ags name { a with status := AgentStatus.crashed }, false) := by
    unfold check_agent_health
    rw [ha]
    dsimp only
    rw [if_pos hr]
  refine ⟨h1, ?_, ?_⟩
  · rw [h1]
    dsimp only
    rw [findAgent_setAgent_same, ha]
    rfl
  · intro code hcode
    unfold check_agent_health
    rw [ha]
    dsimp only
    rw [if_neg hcode]

/-- Witness for the amended C4 on a concrete running agent. -/
theorem running_unhealthy_probe_behaviour_witness :
    check_agent_health sampleRunningFrozen "code" ProbeResult.exn 4 =
      (setAgent sampleRunningFrozen "code"
        { runningFrozenAgent with status := AgentStatus.crashed }, false) ∧
    findAgent (check_agent_health sampleRunningFrozen "code"
        ProbeResult.exn 4).1 "code" =
      some { runningFrozenAgent with status := AgentStatus.crashed } ∧
    check_agent_health sampleRunningFrozen "code" (ProbeResult.ok 500) 4 =
      (sampleRunningFrozen, false) :=
  ⟨(running_unhealthy_probe_behaviour sampleRunningFrozen "code"
      runningFrozenAgent 4 rfl rfl).1,
   (running_unhealthy_probe_behaviour sampleRunningFrozen "code"
      runningFrozenAgent 4 rfl rfl).2.1,
   (running_unhealthy_probe_behaviour sampleRunningFrozen "code"
      runningFrozenAgent 4 rfl rfl).2.2 500 (by decide)⟩

/-- C3 counterexample: a run of `start_agent` in which the spawn succeeds
and the single post-grace-period health probe fails leaves the agent's
status `Stopped`, not `Crashed` as the claim states (the failure branch
calls `stop_agent`, whose final assignment is `status := STOPPED`). -/
theorem start_failed_probe_not_crashed :
    (findAgent (start_agent sampleStopped "file" failedProbeEnv).1 "file").map
        AgentInfo.status = some AgentStatus.stopped ∧
    (start_agent sampleStopped "file" failedProbeEnv).2 = false ∧
    AgentStatus.stopped ≠ AgentStatus.crashed := by
  refine ⟨rfl, rfl, ?_⟩
  intro h
  cases h

/-- C3 amended: when `start_agent` spawns the process successfully (no
spawn exception, process alive after the grace period) and the single
health probe fails, the agent's process is handed to `stop_agent` and —
provided that stop raises no exception — the agent's status is `Stopped`
when `start_agent` returns `False`; it is not left `Starting` and not
`Crashed`. -/
theorem start_failed_probe_ends_stopped
    (ags : Agents) (name : String) (a : AgentInfo) (env : StartEnv)
    (ha : findAgent ags name = some a)
    (hspawn : env.spawnExn = false)
    (hpoll : env.pollAlive = true)
    (hprobe : env.probe ≠ ProbeResult.ok 200)
    (hstop : env.stopExn = false) :
    (start_agent ags name env).2 = false ∧
    (findAgent (start_agent ags name env).1 name).map AgentInfo.status =
      some AgentStatus.stopped := by
  unfold start_agent
  rw [ha]
  dsimp only
  have hb : findAgent (if a.process.isSome && env.prevAlive
        then (stop_agent ags name env.prevStopAlive env.prevStopExn).1
        else ags) name = some a ∨
      findAgent (if a.process.isSome && env.prevAlive
        then (stop_agent ags name env.prevStopAlive env.prevStopExn).1
        else ags) name = some { a with status := AgentStatus.stopped } := by
    split
    · exact findAgent_stop ags name _ _ a ha
    · exact Or.inl ha
  set ags1 := (if a.process.isSome && env.prevAlive
      then (stop_agent ags name env.prevStopAlive env.prevStopExn).1
      else ags) with hg
  have hex : ∃ a1, findAgent ags1 name = some a1 := by
    rcases hb with hb | hb
    · exact ⟨a, hb⟩
    · exact ⟨_, hb⟩
  obtain ⟨a1, ha1⟩ := hex
  rw [ha1]
  dsimp only
  rw [hspawn, if_neg Bool.false_ne_true, hpoll, if_pos rfl]
  have ha3 : findAgent
      (setAgent (setAgent ags1 name { a1 with status := AgentStatus.starting })
        name { a1 with status := AgentStatus.starting, process := some env.newPid })
      name =
      some { a1 with status := AgentStatus.starting,
                     process := some env.newPid } := by
    rw [findAgent_setAgent_same, findAgent_setAgent_same, ha1]
    rfl
  have hchk : check_agent_health
      (setAgent (setAgent ags1 name { a1 with status := AgentStatus.starting })
        name { a1 with status := AgentStatus.starting, process := some env.newPid })
      name env.probe env.now =
      ((setAgent (setAgent ags1 name { a1 with status := AgentStatus.starting })
        name { a1 with status := AgentStatus.starting, process := some env.newPid }),
        false) :=
    check_unhealthy_not_running _ _ _ _ _ ha3
      (fun h => AgentStatus.noConfusion h) hprobe
  rw [hchk]
  dsimp only
  rw [if_neg Bool.false_ne_true]
  refine ⟨rfl, ?_⟩
  rw [hstop]
  exact stop_no_exn_ends_stopped _ _ _ _ ha3

/-- Witness for the amended C3 at a concrete run. -/
theorem start_failed_probe_ends_stopped_witness :
    (start_agent sampleStopped "file" failedProbeEnv).2 = false ∧
    (findAgent (start_agent sampleStopped "file" failedProbeEnv).1 "file").map
        AgentInfo.status = some AgentStatus.stopped :=
  start_failed_probe_ends_stopped sampleStopped "file" stoppedAgent
    failedProbeEnv rfl rfl rfl (by decide) rfl

/-- C2: under unique registry keys, `get_fallback_agents` returns exactly
the members of the declared fallback chain whose status is `Running`, in
declared order; the result is duplicate-free; and for `"casual"`, whose
declared chain is empty, the result is `[]` whatever the agents' health. -/
theorem get_fallback_agents_spec
    (ags : Agents) (hnd : (ags.map Prod.fst).Nodup) (nm : String) :
    get_fallback_agents ags nm =
      (fallback_map nm).filter (fun x => runningB ags x) ∧
    (get_fallback_agents ags nm).Nodup ∧
    get_fallback_agents ags "casual" = [] := by
  have hfun : ∀ x, (get_healthy_agents ags).contains x = runningB ags x := by
    intro x
    have h1 := mem_healthy_iff ags x hnd
    have h2 : ((get_healthy_agents ags).contains x = true) ↔
        x ∈ get_healthy_agents ags := List.elem_iff
    by_cases hx : runningB ags x = true
    · rw [hx]
      exact h2.mpr (h1.mpr hx)
    · have hc : ¬ ((get_healthy_agents ags).contains x = true) :=
        fun hcc => hx (h1.mp (h2.mp hcc))
      rw [Bool.not_eq_true] at hc hx
      rw [hc, hx]
  have hmain : get_fallback_agents ags nm =
      (fallback_map nm).filter (fun x => runningB ags x) := by
    unfold get_fallback_agents
    dsimp only
    rw [show (fun a => (get_healthy_agents ags).contains a) =
          (fun x => runningB ags x) from funext hfun]
  refine ⟨hmain, ?_, rfl⟩
  rw [hmain]
  exact (fallback_map_nodup nm).filter _

/-- Witness for C2 on the five-agent table with mixed health. -/
theorem get_fallback_agents_spec_witness :
    (get_fallback_agents sampleRegistry "planner" =
      (fallback_map "planner").filter (fun x => runningB sampleRegistry x)) ∧
    (get_fallback_agents sampleRegistry "planner").Nodup ∧
    get_fallback_agents sampleRegistry "casual" = [] :=
  get_fallback_agents_spec sampleRegistry (by decide) "planner"

/-- C5: the `/query` handler always returns the fixed envelope: its
`agent_name` field names the serving agent, `success` is `True` exactly
when the underlying agent call did not raise, `error` is set exactly on
failure, and a raised exception is converted into an envelope with
`success = False` and `error` carrying the message — never propagated. -/
theorem query_endpoint_envelope
    (agent_name : String) (r : Except String AgentResult) :
    ((execute_query agent_name r).success = true ↔ ∃ res, r = Except.ok res) ∧
    ((execute_query agent_name r).error = none ↔
      (execute_query agent_name r).success = true) ∧
    (execute_query agent_name r).agent_name = agent_name ∧
    (∀ e, r = Except.error e →
      (execute_query agent_name r).success = false ∧
      (execute_query agent_name r).error =
        some ("Error in " ++ agent_name ++ " agent: " ++ e)) := by
  cases r with
  | ok res =>
    refine ⟨⟨fun _ => ⟨res, rfl⟩, fun _ => rfl⟩,
            ⟨fun _ => rfl, fun _ => rfl⟩, rfl, ?_⟩
    intro e he
    exact Except.noConfusion he
  | error e =>
    refine ⟨⟨fun h => Bool.noConfusion h,
             fun ⟨res, hres⟩ => Except.noConfusion hres⟩,
            ⟨fun h => Option.noConfusion h, fun h => Bool.noConfusion h⟩,
            rfl, ?_⟩
    intro e2 he2
    injection he2 with he3
    subst he3
    exact ⟨rfl, rfl⟩

/-- Witness for C5 at a concrete raised exception. -/
theorem query_endpoint_envelope_witness :
    (execute_query "code" (Except.error "boom")).success = false ∧
    (execute_query "code" (Except.error "boom")).error =
      some ("Error in " ++ "code" ++ " agent: " ++ "boom") :=
  (query_endpoint_envelope "code" (Except.error "boom")).2.2.2 "boom" rfl

/-- A crashed agent with remaining restart budget, for the concurrency
scenario. -/
def crashedBrowserAgent : AgentInfo :=
  { name := "browser", port := 8001, process := some 42,
    status := AgentStatus.crashed, restart_count := 0,
    script_path := "mcp_agents/browser_agent_server.py" }

/-- One-agent registry holding `crashedBrowserAgent`. -/
def sampleCrashed : Agents := [("browser", crashedBrowserAgent)]

/-- Environment of the first (suspended) restart call. -/
def restartEnvA : RestartEnv :=
  { stopAlive := false, stopExn := false, start := { newPid := 43 } }

/-- Environment of the second (interleaved) restart call. -/
def restartEnvB : RestartEnv :=
  { stopAlive := false, stopExn := false, start := { newPid := 44 } }

/-- C8 (code bug): `restart_agent` has no per-agent exclusion.  The first
conjunct shows `restart_phase1` — the guard, the `restart_count`
increment and the stop step — is exactly the prefix of `restart_agent`'s
computation executed atomically before the coroutine first suspends (at
`await asyncio.sleep(2)`, between its stop and its start).  From that
suspension state, a second `restart_agent` call for the same agent does
not wait and does not no-op: it passes the guard, performs its own full
stop-then-start inside the first call's stop–start bracket, returns
`True`, and increments `restart_count` a second time. -/
theorem concurrent_restart_not_serialized :
    restart_agent sampleCrashed "browser" restartEnvA =
      start_agent (restart_phase1 sampleCrashed "browser" false false)
        "browser" restartEnvA.start ∧
    (restart_agent (restart_phase1 sampleCrashed "browser" false false)
        "browser" restartEnvB).2 = true ∧
    (findAgent (restart_agent (restart_phase1 sampleCrashed "browser" false false)
        "browser" restartEnvB).1 "browser").map AgentInfo.restart_count =
      some 2 ∧
    (findAgent (restart_agent (restart_phase1 sampleCrashed "browser" false false)
        "browser" restartEnvB).1 "browser").map AgentInfo.status =
      some AgentStatus.running :=
  ⟨rfl, rfl, rfl, rfl⟩

end AgenticSeek
